import Mathlib

/-!
Verification of the iLoveVideo transcode server.

Shallow embedding of the Express server found in `src/unnamed/part_001`
(the full server: Supabase auth, pro tier, Paystack webhook). The older
variant `src/backend/server.js` shares the `runFFmpeg` helper, the usage
ledger and the compress route verbatim; where the two differ the embedding
follows `src/unnamed/part_001`, which every claim cites.

Conventions of the embedding:
  * the parsed contents of `usage.json` become a `Store`
    (`String → Option Entry`); `loadUsage`/`saveUsage` are the identity
    round-trip on that object, so the two functions below operate on the
    store directly;
  * the current UTC day string `new Date().toISOString().slice(0, 10)`
    becomes an explicit `today : String` argument;
  * external collaborators (Supabase token verification, the profiles
    lookup, the HMAC digest, JSON parsing) become function arguments; a
    thrown exception or an error result is an `Except.error`;
  * file contents are `List Nat` (byte lists); existence of the two
    scratch files is a pair of Booleans;
  * the event-driven body of `runFFmpeg` is embedded as a function of
    which process/stream events fire (`JobOutcome`), exactly mirroring
    the handler registered for each event in the source.
-/

/-- One record of `usage.json`: `{ count, date }`. -/
structure Entry where
  count : Nat
  date : String
deriving DecidableEq, Repr

/-- The parsed contents of `usage.json`: one optional entry per key. -/
def Store : Type := String → Option Entry

/-- `GUEST_LIMIT = 3` (src/unnamed/part_001 line 53). -/
def GUEST_LIMIT : Nat := 3

/-- `USER_LIMIT = 10` (src/unnamed/part_001 line 54). -/
def USER_LIMIT : Nat := 10

/-- `getUsageForKey` (src/unnamed/part_001 lines 71-77): return the key's
entry if it is from `today`, otherwise a fresh `{count: 0, date: today}`. -/
def getUsageForKey (data : Store) (today key : String) : Entry :=
  match data key with
  | none => ⟨0, today⟩
  | some e => if e.date = today then e else ⟨0, today⟩

/-- `incrementUsageForKey` (src/unnamed/part_001 lines 79-86): reset the
entry to `{count: 0, date: today}` when absent or stale, add one to its
count, save. -/
def incrementUsageForKey (data : Store) (today key : String) : Store :=
  let base : Entry :=
    match data key with
    | none => ⟨0, today⟩
    | some e => if e.date = today then e else ⟨0, today⟩
  fun k => if k = key then some ⟨base.count + 1, today⟩ else data k

theorem increment_peek (data : Store) (today key : String) :
    getUsageForKey (incrementUsageForKey data today key) today key =
      ⟨(getUsageForKey data today key).count + 1, today⟩ := by
  unfold getUsageForKey incrementUsageForKey
  cases h : data key with
  | none => simp
  | some e =>
      by_cases hd : e.date = today <;> simp [hd]

/-- JavaScript `a || b` on strings: the empty string is falsy. -/
def jsOrS (a b : String) : String := if a = "" then b else a

/-- The request fields the identity resolver reads. -/
structure Req where
  authHeader : Option String
  xForwardedFor : Option String
  ip : Option String
deriving Repr

/-- `getClientIp` (src/unnamed/part_001 lines 67-69):
`(req.headers[\x27x-forwarded-for\x27] || \x27\x27).split(\x27,\x27)[0].trim() || req.ip || \x27\x27`. -/
def getClientIp (r : Req) : String :=
  jsOrS ((((r.xForwardedFor.getD "").splitOn ",").headD "").trim)
    (jsOrS (r.ip.getD "") "")

/-- JavaScript `s.startsWith(pre)`, computed over the character list. -/
def startsWithJS (s pre : String) : Bool := pre.data.isPrefixOf s.data

/-- JavaScript `s.trim()`, computed over the character list. -/
def trimJS (s : String) : String :=
  ⟨((s.data.dropWhile Char.isWhitespace).reverse.dropWhile
      Char.isWhitespace).reverse⟩

/-- JavaScript `s.slice(n)`, computed over the character list. -/
def dropJS (s : String) (n : Nat) : String := ⟨s.data.drop n⟩

/-- `resolveUser` (src/unnamed/part_001 lines 89-100): extract the bearer
token from the Authorization header and verify it with the external
collaborator `getUser` (Supabase `auth.getUser`); every failure — missing
header, malformed header, empty token, verification error, thrown
exception, or no user — yields `none`. -/
def resolveUser (getUser : String → Except Unit (Option String)) (r : Req) :
    Option String :=
  let ah := r.authHeader.getD ""
  let token : Option String :=
    if startsWithJS ah "Bearer " then some (trimJS (dropJS ah 7)) else none
  match token with
  | none => none
  | some t =>
      if t = "" then none
      else
        match getUser t with
        | Except.error _ => none
        | Except.ok none => none
        | Except.ok (some uid) => some uid

/-- The identity context returned by `resolveKeyAndLimit`:
`{ key, limit, isPro, userId }`; `limit = none` is the JS `null`. -/
structure Ctx where
  key : String
  limit : Option Nat
  isPro : Bool
  userId : Option String
deriving DecidableEq, Repr

/-- `resolveKeyAndLimit` (src/unnamed/part_001 lines 102-117): an
authenticated user is keyed `user:<id>` with `USER_LIMIT` unless the
pro-flag lookup (`getIsPro`, the `profiles` query) positively returns
true; a lookup error or absent row means not pro. Anyone else is keyed
by client IP with `GUEST_LIMIT`. -/
def resolveKeyAndLimit (getUser : String → Except Unit (Option String))
    (getIsPro : String → Except Unit (Option Bool)) (r : Req) : Ctx :=
  match resolveUser getUser r with
  | some uid =>
      let isPro : Bool :=
        match getIsPro uid with
        | Except.error _ => false
        | Except.ok p => p.getD false
      { key := "user:" ++ uid
        limit := if isPro then none else some USER_LIMIT
        isPro := isPro
        userId := some uid }
  | none =>
      { key := getClientIp r, limit := some GUEST_LIMIT
        isPro := false, userId := none }

/-- Existence flags for the job's two scratch files. -/
structure Scratch where
  input : Bool
  output : Bool
deriving DecidableEq, Repr

/-- Contents of the job's files: the uploaded input's bytes and the bytes
ffmpeg wrote to the output path (when it produced one). File sizes are the
lengths of these lists. -/
structure JobFiles where
  inputBytes : List Nat
  outputBytes : List Nat
deriving DecidableEq, Repr

/-- How the response stream piped by `runFFmpeg` terminates: its own
`end` event, its own `error` event, or a client disconnect after headers
were sent — in which case neither stream callback ever fires and the
`req.on(\x27close\x27)` handler is a no-op because `res.headersSent` is
true (src/unnamed/part_001 lines 269-274). -/
inductive StreamEnd where
  | ended
  | errored
  | aborted
deriving DecidableEq, Repr

/-- Which events fire for one invocation of `runFFmpeg`
(src/unnamed/part_001 lines 198-275): the spawn `error` handler, the
`close` handler with nonzero code, the `close` handler with code 0 but no
output file, the `close` handler with code 0 and an output file followed
by a stream terminal event, or the request's `close` event before any
headers were sent. -/
inductive JobOutcome where
  | spawnError
  | exitNonZero
  | exitZeroNoOutput
  | exitZeroStreamed (send : StreamEnd)
  | abortedPreHeaders
deriving DecidableEq, Repr

/-- The `cleanup` closure of `runFFmpeg` (src/unnamed/part_001 lines
199-202): always unlink the input, unlink the output when asked (the
`existsSync` guards only avoid useless unlinks). -/
def cleanup (deleteOutput : Bool) (s : Scratch) : Scratch :=
  { input := false, output := if deleteOutput then false else s.output }

/-- The observable result of one `runFFmpeg` invocation: final scratch
state, the JSON error status if one was sent, the full byte sequence
streamed to the caller when a pipe ran to completion, and whether the
`X-Already-Optimized` header was set. -/
structure RunResult where
  scratch : Scratch
  status : Option Nat
  body : Option (List Nat)
  alreadyOptimized : Bool
deriving DecidableEq, Repr

/-- `runFFmpeg` (src/unnamed/part_001 lines 198-275) as a function of
which events fire. Paths, mirroring the source handlers in order:
spawn error → `cleanup(true)` and a 500; nonzero exit → `cleanup(true)`
and a 500; zero exit with no output file → `cleanup(true)` and a 500;
zero exit with an output file → compare sizes: with `opts.sizeGuard` and
`outputSize > originalSize` the output is unlinked, `X-Already-Optimized`
is set and the input is streamed (the input is unlinked on the stream's
`end`/`error`; nothing runs on a mid-stream disconnect); otherwise the
output is streamed and `cleanup(true)` runs on `end`/`error` (nothing on
a mid-stream disconnect); a client disconnect before headers were sent →
kill and `cleanup(true)`. The job starts with the input on disk, and the
output on disk exactly in the `exitZeroStreamed` case. -/
def runFFmpeg (outcome : JobOutcome) (sizeGuard : Bool) (files : JobFiles) :
    RunResult :=
  match outcome with
  | .spawnError => ⟨cleanup true ⟨true, false⟩, some 500, none, false⟩
  | .exitNonZero => ⟨cleanup true ⟨true, true⟩, some 500, none, false⟩
  | .exitZeroNoOutput => ⟨cleanup true ⟨true, false⟩, some 500, none, false⟩
  | .exitZeroStreamed send =>
      let originalSize := files.inputBytes.length
      let outputSize := files.outputBytes.length
      if sizeGuard && decide (outputSize > originalSize) then
        match send with
        | .ended => ⟨⟨false, false⟩, none, some files.inputBytes, true⟩
        | .errored => ⟨⟨false, false⟩, none, none, true⟩
        | .aborted => ⟨⟨true, false⟩, none, none, true⟩
      else
        match send with
        | .ended => ⟨cleanup true ⟨true, true⟩, none, some files.outputBytes, false⟩
        | .errored => ⟨cleanup true ⟨true, true⟩, none, none, false⟩
        | .aborted => ⟨⟨true, true⟩, none, none, false⟩
  | .abortedPreHeaders => ⟨cleanup true ⟨true, false⟩, none, none, false⟩

/-- The one `runFFmpeg` path on which no cleanup code runs: process
succeeded, a stream was piping, and the client disconnected mid-stream. -/
def midStreamAbort : JobOutcome → Bool
  | .exitZeroStreamed .aborted => true
  | _ => false

/-- JavaScript `parseInt(s)` for decimal inputs: skip leading whitespace,
take an optional sign, then the longest digit prefix; no digits means
`NaN`, embedded as `none`. (The automatic hex radix for a `0x` prefix is
not modelled; the resize fields of interest are decimal.) -/
def parseIntJS (s : String) : Option Int :=
  let cs := s.data.dropWhile Char.isWhitespace
  let signedRest : Bool × List Char :=
    match cs with
    | '-' :: t => (true, t)
    | '+' :: t => (false, t)
    | t => (false, t)
  let digits := signedRest.2.takeWhile Char.isDigit
  if digits.isEmpty then none
  else
    let n : Nat := digits.foldl (fun acc c => acc * 10 + (c.toNat - 48)) 0
    some (if signedRest.1 then -(n : Int) else (n : Int))

/-- JavaScript template interpolation of a number: `NaN` prints as the
three characters `NaN`, integers in decimal. -/
def numToArgString : Option Int → String
  | none => "NaN"
  | some n => toString n

/-- `COMPRESS_PRESETS.whatsapp` (src/unnamed/part_001 lines 164-169). -/
def whatsappArgs : List String :=
  ["-c:v", "libx264", "-preset", "fast", "-crf", "28",
   "-vf", "scale=\x27min(1280,iw)\x27:-2",
   "-c:a", "aac", "-b:a", "96k",
   "-movflags", "+faststart", "-pix_fmt", "yuv420p", "-threads", "0"]

/-- `COMPRESS_PRESETS.instagram` (src/unnamed/part_001 lines 170-175). -/
def instagramArgs : List String :=
  ["-c:v", "libx264", "-preset", "fast", "-crf", "23",
   "-vf", "scale=-2:1080",
   "-c:a", "aac", "-b:a", "128k",
   "-movflags", "+faststart", "-pix_fmt", "yuv420p", "-threads", "0"]

/-- `COMPRESS_PRESETS.tiktok` (src/unnamed/part_001 lines 176-181). -/
def tiktokArgs : List String :=
  ["-c:v", "libx264", "-preset", "fast", "-crf", "25",
   "-vf", "scale=-2:1080",
   "-c:a", "aac", "-b:a", "128k",
   "-movflags", "+faststart", "-pix_fmt", "yuv420p", "-threads", "0"]

/-- `COMPRESS_PRESETS[\x27max-quality\x27]` (src/unnamed/part_001 lines
182-187). -/
def maxQualityArgs : List String :=
  ["-c:v", "libx264", "-preset", "fast", "-crf", "18",
   "-c:a", "aac", "-b:a", "192k",
   "-movflags", "+faststart", "-pix_fmt", "yuv420p", "-threads", "0"]

/-- The `COMPRESS_PRESETS` catalog (src/unnamed/part_001 lines 162-188)
as a lookup by preset id. -/
def COMPRESS_PRESETS (p : String) : Option (List String) :=
  if p = "whatsapp" then some whatsappArgs
  else if p = "instagram" then some instagramArgs
  else if p = "tiktok" then some tiktokArgs
  else if p = "max-quality" then some maxQualityArgs
  else none

/-- `req.body.preset || \x27whatsapp\x27` (src/unnamed/part_001 line
305): an absent or empty preset field falls back to `whatsapp`. -/
def choosePreset (presetField : Option String) : String :=
  jsOrS (presetField.getD "") "whatsapp"

/-- `COMPRESS_PRESETS[preset] || COMPRESS_PRESETS.whatsapp`
(src/unnamed/part_001 line 306). -/
def choosePresetArgs (presetField : Option String) : List String :=
  (COMPRESS_PRESETS (choosePreset presetField)).getD whatsappArgs

/-- The `RESIZE_CRF` table (src/unnamed/part_001 lines 191-195). -/
def RESIZE_CRF (q : String) : Option String :=
  if q = "visually-lossless" then some "18"
  else if q = "high" then some "23"
  else if q = "balanced" then some "28"
  else none

/-- The `vf` filter string of `/api/resize` (src/unnamed/part_001 lines
333-335), built by template interpolation of the already-parsed `w` and
`h` only. -/
def resizeVf (w h : Option Int) (mode : String) : String :=
  let ws := numToArgString w
  let hs := numToArgString h
  if mode = "crop" then
    "scale=" ++ ws ++ ":" ++ hs ++
      ":force_original_aspect_ratio=increase,crop=" ++ ws ++ ":" ++ hs
  else
    "scale=" ++ ws ++ ":" ++ hs ++
      ":force_original_aspect_ratio=decrease,pad=" ++ ws ++ ":" ++ hs ++
      ":(ow-iw)/2:(oh-ih)/2:black"

/-- The full ffmpeg argument list of `/api/resize` (src/unnamed/part_001
lines 328-350): `w`/`h` from `parseInt`, `crf` from the `RESIZE_CRF`
table with fallback `23`, the filter from `resizeVf`. -/
def resizeArgs (inputPath outputPath width height mode quality : String) :
    List String :=
  let w := parseIntJS width
  let h := parseIntJS height
  let crf := (RESIZE_CRF quality).getD "23"
  ["-i", inputPath,
   "-c:v", "libx264", "-preset", "fast", "-crf", crf,
   "-vf", resizeVf w h mode,
   "-c:a", "aac", "-b:a", "128k",
   "-movflags", "+faststart", "-pix_fmt", "yuv420p", "-threads", "0",
   outputPath]

/-- The observable outcome of one `/api/compress` or `/api/resize`
request: response status (from the rejection branches or from
`runFFmpeg`), the JSON `error` code and `limit` field when a rejection
body was sent, the usage store after the handler, whether the uploaded
file was unlinked by the rejection branch, whether an ffmpeg process was
spawned and with which argument list, the `runFFmpeg` result when one
ran, and the final state of the job's scratch files. -/
structure HandlerOut where
  status : Option Nat
  errorCode : Option String
  limitField : Option (Option Nat)
  store : Store
  uploadDeleted : Bool
  spawned : Bool
  args : Option (List String)
  run : Option RunResult
  scratch : Scratch

/-- The quota gate shared by both routes (src/unnamed/part_001 lines 299
and 322): `!isPro && usage.count >= limit`. When `limit` is the JS
`null` (pro), `>=` coerces it to 0; `Option.getD 0` matches, and the
conjunct is dead anyway because `isPro` is true exactly when `limit` is
null. -/
def quotaGate (ctx : Ctx) (count : Nat) : Bool :=
  !ctx.isPro && decide (count ≥ ctx.limit.getD 0)

/-- `app.post(\x27/api/compress\x27)` (src/unnamed/part_001 lines
293-314): reject 400 without a file; reject 429 with
`{error: \x22LIMIT_REACHED\x22, limit}` and unlink the upload when the
quota gate fires; otherwise increment the usage once, resolve the preset
arguments, and hand the job to `runFFmpeg` (no size guard). -/
def compressHandler (ctx : Ctx) (store : Store) (today : String)
    (hasFile : Bool) (presetField : Option String)
    (inputPath outputPath : String) (files : JobFiles)
    (outcome : JobOutcome) : HandlerOut :=
  if !hasFile then
    ⟨some 400, some "No video file uploaded", none, store,
     false, false, none, none, ⟨false, false⟩⟩
  else
    let usage := getUsageForKey store today ctx.key
    if quotaGate ctx usage.count then
      ⟨some 429, some "LIMIT_REACHED", some ctx.limit, store,
       true, false, none, none, ⟨false, false⟩⟩
    else
      let store2 := incrementUsageForKey store today ctx.key
      let args := ["-i", inputPath] ++ choosePresetArgs presetField ++ [outputPath]
      let r := runFFmpeg outcome false files
      ⟨r.status, none, none, store2, false, true, some args, some r, r.scratch⟩

/-- `app.post(\x27/api/resize\x27)` (src/unnamed/part_001 lines 316-353):
same admission as compress; the body fields default to
`width = \x271080\x27, height = \x271920\x27, mode = \x27fit\x27,
quality = \x27high\x27` when absent; the job runs with the size guard
on. -/
def resizeHandler (ctx : Ctx) (store : Store) (today : String)
    (hasFile : Bool) (width height mode quality : Option String)
    (inputPath outputPath : String) (files : JobFiles)
    (outcome : JobOutcome) : HandlerOut :=
  if !hasFile then
    ⟨some 400, some "No video file uploaded", none, store,
     false, false, none, none, ⟨false, false⟩⟩
  else
    let usage := getUsageForKey store today ctx.key
    if quotaGate ctx usage.count then
      ⟨some 429, some "LIMIT_REACHED", some ctx.limit, store,
       true, false, none, none, ⟨false, false⟩⟩
    else
      let store2 := incrementUsageForKey store today ctx.key
      let args := resizeArgs inputPath outputPath (width.getD "1080")
        (height.getD "1920") (mode.getD "fit") (quality.getD "high")
      let r := runFFmpeg outcome true files
      ⟨r.status, none, none, store2, false, true, some args, some r, r.scratch⟩

/-- The fields of a parsed webhook payload that the handler reads:
`payload.event` and `payload.data?.reference || \x27\x27`. -/
structure Payload where
  event : String
  reference : String
deriving DecidableEq, Repr

/-- The observable outcome of one `/api/paystack-webhook` request: the
response status, whether `JSON.parse` ran on the body, and the user id
whose profile row was updated to `is_pro: true` (if any). -/
structure WebhookResult where
  status : Nat
  parsedBody : Bool
  proActivatedFor : Option String
deriving DecidableEq, Repr

/-- The signature acceptance test of the webhook (src/unnamed/part_001
line 379): `!signature || signature !== expectedHash` rejects; an absent
header and an empty header string are both falsy. -/
def sigAccepted (signature : Option String) (expectedHash : String) : Bool :=
  match signature with
  | none => false
  | some s => !(s = "") && s = expectedHash

/-- `app.post(\x27/api/paystack-webhook\x27)` (src/unnamed/part_001 lines
371-414). `hmacHex` is `crypto.createHmac(\x27sha512\x27, secret)
.update(rawBody).digest(\x27hex\x27)` with the secret baked in; `parse`
is `JSON.parse` on the raw body. The signature test runs first; only
after it passes is the body parsed, and only a `charge.success` event
whose reference splits as `ilv-<uuid>-<timestamp>` (at least 7 parts,
first `ilv`) updates the profile row of `parts.slice(1, 6).join(\x27-\x27)`. -/
def paystackWebhook (hmacHex : List Nat → String)
    (parse : List Nat → Option Payload)
    (signature : Option String) (body : List Nat) : WebhookResult :=
  let expectedHash := hmacHex body
  if !(sigAccepted signature expectedHash) then
    ⟨401, false, none⟩
  else
    match parse body with
    | none => ⟨400, true, none⟩
    | some payload =>
        if payload.event = "charge.success" then
          let parts := payload.reference.splitOn "-"
          if parts.length ≥ 7 ∧ parts.headD "" = "ilv" then
            ⟨200, true, some (String.intercalate "-" ((parts.drop 1).take 5))⟩
          else ⟨200, true, none⟩
        else ⟨200, true, none⟩

/-- One scheduled step of a concurrent `incrementUsageForKey` call by
thread `t` on a fresh key and fixed day: the load of the current count
(`loadUsage` + the stale check, which on a fresh same-day entry reduces
to reading the count) or the store of the incremented count
(`saveUsage`). -/
inductive CStep where
  | read (t : Nat)
  | write (t : Nat)
deriving DecidableEq, Repr, BEq

/-- Shared-store state for the interleaving model: the key's current
count plus each thread's privately captured count. -/
structure CState where
  count : Nat
  regs : Nat → Option Nat

/-- Effect of one step: a read captures the shared count into the
thread's register; a write stores the captured count plus one. -/
def stepC : CStep → CState → CState
  | .read t, s => { s with regs := fun u => if u = t then some s.count else s.regs u }
  | .write t, s =>
      match s.regs t with
      | some v => { s with count := v + 1 }
      | none => s

/-- Run a schedule of steps over the shared store. -/
def execSched : List CStep → CState → CState
  | [], s => s
  | st :: rest, s => execSched rest (stepC st s)

/-- Fresh key: count 0, no thread has read yet. -/
def initC : CState := ⟨0, fun _ => none⟩

/-- A valid schedule of `n` concurrent increments: exactly the steps
`read t` and `write t` for each `t < n`, each thread's read before its
write. -/
def isValidSched (n : Nat) (sched : List CStep) : Bool :=
  sched.length = 2 * n &&
  (List.range n).all (fun t =>
    sched.count (CStep.read t) = 1 && sched.count (CStep.write t) = 1 &&
    sched.findIdx (fun x => x == CStep.read t) <
      sched.findIdx (fun x => x == CStep.write t)) &&
  sched.all (fun st => match st with | .read t => t < n | .write t => t < n)

/-- The schedule in which each increment's read-modify-write runs
atomically (back to back), in the given thread order — the only kind of
schedule the synchronous, single-threaded implementation of
`incrementUsageForKey` can produce. -/
def atomicSched (order : List Nat) : List CStep :=
  order.flatMap (fun t => [CStep.read t, CStep.write t])

theorem runFFmpeg_clean (outcome : JobOutcome) (g : Bool) (files : JobFiles)
    (h : midStreamAbort outcome = false) :
    (runFFmpeg outcome g files).scratch = ⟨false, false⟩ := by
  cases outcome with
  | spawnError => rfl
  | exitNonZero => rfl
  | exitZeroNoOutput => rfl
  | abortedPreHeaders => rfl
  | exitZeroStreamed send =>
      cases send with
      | ended =>
          by_cases hc : (g && decide (files.outputBytes.length >
              files.inputBytes.length)) = true <;>
            simp [runFFmpeg, hc, cleanup]
      | errored =>
          by_cases hc : (g && decide (files.outputBytes.length >
              files.inputBytes.length)) = true <;>
            simp [runFFmpeg, hc, cleanup]
      | aborted => simp [midStreamAbort] at h

/-- Claim C1, counterexample. The claim says neither scratch file exists
after the response stream ends on every exit path of `runFFmpeg`. On the
path where ffmpeg exits 0, the output is being streamed, and the client
disconnects mid-stream, no cleanup code runs: the stream's `end`/`error`
callbacks never fire and the `req.on(\x27close\x27)` handler is guarded
by `!res.headersSent`, which is false by then. Both files remain on
disk. -/
theorem c1_cleanup_cex :
    (runFFmpeg (JobOutcome.exitZeroStreamed StreamEnd.aborted) false
        ⟨[0, 1], [2]⟩).scratch.input = true ∧
    (runFFmpeg (JobOutcome.exitZeroStreamed StreamEnd.aborted) false
        ⟨[0, 1], [2]⟩).scratch.output = true := by
  exact ⟨rfl, rfl⟩

/-- Claim C1, amended: on every exit path of a compress or resize job —
normal completion, ffmpeg failure, spawn error, quota rejection (which
never reaches `runFFmpeg`), missing upload, and client disconnect before
headers were sent — neither the job's input path nor its output path
exists afterwards. The one exception, forced by the counterexample, is a
client disconnect after streaming began, where the files are left for
the hourly retention sweeper. -/
theorem c1_cleanup_amended (ctx : Ctx) (store : Store) (today : String)
    (hasFile : Bool) (presetField width height mode quality : Option String)
    (inputPath outputPath : String) (files : JobFiles) (outcome : JobOutcome)
    (h : midStreamAbort outcome = false) :
    (compressHandler ctx store today hasFile presetField inputPath outputPath
        files outcome).scratch = ⟨false, false⟩ ∧
    (resizeHandler ctx store today hasFile width height mode quality inputPath
        outputPath files outcome).scratch = ⟨false, false⟩ := by
  constructor
  · unfold compressHandler
    cases hasFile with
    | false => rfl
    | true =>
        by_cases hq : quotaGate ctx (getUsageForKey store today ctx.key).count
        · simp [hq]
        · simp [hq, runFFmpeg_clean _ _ _ h]
  · unfold resizeHandler
    cases hasFile with
    | false => rfl
    | true =>
        by_cases hq : quotaGate ctx (getUsageForKey store today ctx.key).count
        · simp [hq]
        · simp [hq, runFFmpeg_clean _ _ _ h]

/-- Claim C1, witness: the amended theorem at a concrete job (anonymous
caller, ffmpeg fails with a nonzero exit). -/
theorem c1_cleanup_witness :
    (compressHandler ⟨"9.9.9.9", some 3, false, none⟩ (fun _ => none)
        "2026-10-12" true none "IN" "OUT" ⟨[0], [1]⟩
        JobOutcome.exitNonZero).scratch = ⟨false, false⟩ ∧
    (resizeHandler ⟨"9.9.9.9", some 3, false, none⟩ (fun _ => none)
        "2026-10-12" true none none none none "IN" "OUT" ⟨[0], [1]⟩
        JobOutcome.exitNonZero).scratch = ⟨false, false⟩ :=
  c1_cleanup_amended ⟨"9.9.9.9", some 3, false, none⟩ (fun _ => none)
    "2026-10-12" true none none none none none "IN" "OUT" ⟨[0], [1]⟩
    JobOutcome.exitNonZero rfl

/-- Claim C2, counterexample. The claim triggers the size-guard fallback
when the output size is greater than **or equal to** the input size; the
code tests `outputSize > originalSize` strictly. With a 1-byte input
`[0]` and a 1-byte output `[1]` (output ≥ input), the transcoded output
`[1]` — not the original input — is streamed and `X-Already-Optimized`
is not set. -/
theorem c2_sizeguard_cex :
    (runFFmpeg (JobOutcome.exitZeroStreamed StreamEnd.ended) true
        ⟨[0], [1]⟩).alreadyOptimized = false ∧
    (runFFmpeg (JobOutcome.exitZeroStreamed StreamEnd.ended) true
        ⟨[0], [1]⟩).body = some [1] := by
  exact ⟨rfl, rfl⟩

/-- Claim C2, amended: for a size-guarded job whose output is **strictly
larger** than its input, the output file is deleted, the
`X-Already-Optimized` header is set, and when the stream completes the
bytes sent are exactly the original uploaded input. -/
theorem c2_sizeguard_amended (files : JobFiles) (send : StreamEnd)
    (h : files.outputBytes.length > files.inputBytes.length) :
    (runFFmpeg (JobOutcome.exitZeroStreamed send) true files).alreadyOptimized
        = true ∧
    (runFFmpeg (JobOutcome.exitZeroStreamed send) true files).scratch.output
        = false ∧
    (send = StreamEnd.ended →
      (runFFmpeg (JobOutcome.exitZeroStreamed send) true files).body
          = some files.inputBytes) := by
  cases send <;> simp [runFFmpeg, h]

/-- Claim C2, witness: the amended theorem at a 1-byte input and a
2-byte output. -/
theorem c2_sizeguard_witness :
    (runFFmpeg (JobOutcome.exitZeroStreamed StreamEnd.ended) true
        ⟨[0], [1, 2]⟩).alreadyOptimized = true ∧
    (runFFmpeg (JobOutcome.exitZeroStreamed StreamEnd.ended) true
        ⟨[0], [1, 2]⟩).scratch.output = false ∧
    (StreamEnd.ended = StreamEnd.ended →
      (runFFmpeg (JobOutcome.exitZeroStreamed StreamEnd.ended) true
          ⟨[0], [1, 2]⟩).body = some [0]) :=
  c2_sizeguard_amended ⟨[0], [1, 2]⟩ StreamEnd.ended (by decide)

/-- Claim C3: when a compress request passes the quota gate, the usage
increment runs exactly once, before `runFFmpeg`; the resulting store is
`incrementUsageForKey` of the old one whatever the job outcome, the
current-day count after the commit is the previous count plus one, and
the ffmpeg process is spawned afterwards. The quantification over
`outcome` shows a failed transcode counts exactly like a successful
one. -/
theorem c3_commit_once (ctx : Ctx) (store : Store) (today : String)
    (presetField : Option String) (inputPath outputPath : String)
    (files : JobFiles) (outcome : JobOutcome)
    (h : quotaGate ctx (getUsageForKey store today ctx.key).count = false) :
    (compressHandler ctx store today true presetField inputPath outputPath
        files outcome).store = incrementUsageForKey store today ctx.key ∧
    getUsageForKey (compressHandler ctx store today true presetField inputPath
        outputPath files outcome).store today ctx.key =
      ⟨(getUsageForKey store today ctx.key).count + 1, today⟩ ∧
    (compressHandler ctx store today true presetField inputPath outputPath
        files outcome).spawned = true := by
  have hs : (compressHandler ctx store today true presetField inputPath
      outputPath files outcome).store = incrementUsageForKey store today ctx.key := by
    unfold compressHandler
    simp [h]
  refine ⟨hs, ?_, ?_⟩
  · rw [hs, increment_peek]
  · unfold compressHandler
    simp [h]

/-- Claim C3, witness: an admitted anonymous request (fresh key, count 0
below the guest limit) whose ffmpeg job fails; the count still becomes
1. -/
theorem c3_commit_once_witness :
    (compressHandler ⟨"9.9.9.9", some 3, false, none⟩ (fun _ => none)
        "2026-10-12" true none "IN" "OUT" ⟨[0], [1]⟩
        JobOutcome.exitNonZero).store =
      incrementUsageForKey (fun _ => none) "2026-10-12" "9.9.9.9" ∧
    getUsageForKey (compressHandler ⟨"9.9.9.9", some 3, false, none⟩
        (fun _ => none) "2026-10-12" true none "IN" "OUT" ⟨[0], [1]⟩
        JobOutcome.exitNonZero).store "2026-10-12" "9.9.9.9" =
      ⟨(getUsageForKey (fun _ => none) "2026-10-12" "9.9.9.9").count + 1,
        "2026-10-12"⟩ ∧
    (compressHandler ⟨"9.9.9.9", some 3, false, none⟩ (fun _ => none)
        "2026-10-12" true none "IN" "OUT" ⟨[0], [1]⟩
        JobOutcome.exitNonZero).spawned = true :=
  c3_commit_once ⟨"9.9.9.9", some 3, false, none⟩ (fun _ => none)
    "2026-10-12" none "IN" "OUT" ⟨[0], [1]⟩ JobOutcome.exitNonZero (by decide)

/-- Claim C4: a non-pro caller whose current-day count has reached their
numeric limit gets a 429 with error code `LIMIT_REACHED` and the limit in
the body, the uploaded file is unlinked, no ffmpeg process is spawned,
and the usage store is left unchanged — on both the compress and the
resize route. The witness below instantiates the anonymous fourth-call
scenario with limit `GUEST_LIMIT = 3`. -/
theorem c4_limit_reached (ctx : Ctx) (store : Store) (today : String)
    (presetField width height mode quality : Option String)
    (inputPath outputPath : String) (files : JobFiles) (outcome : JobOutcome)
    (l : Nat) (hp : ctx.isPro = false) (hl : ctx.limit = some l)
    (hge : (getUsageForKey store today ctx.key).count ≥ l) :
    compressHandler ctx store today true presetField inputPath outputPath
        files outcome =
      ⟨some 429, some "LIMIT_REACHED", some (some l), store, true, false,
        none, none, ⟨false, false⟩⟩ ∧
    resizeHandler ctx store today true width height mode quality inputPath
        outputPath files outcome =
      ⟨some 429, some "LIMIT_REACHED", some (some l), store, true, false,
        none, none, ⟨false, false⟩⟩ := by
  have hq : quotaGate ctx (getUsageForKey store today ctx.key).count = true := by
    unfold quotaGate
    simp [hp, hl, hge]
  constructor
  · unfold compressHandler
    simp [hq, hl]
  · unfold resizeHandler
    simp [hq, hl]

/-- The usage store of an anonymous caller at `9.9.9.9` after three
admitted calls on 2026-10-12 (three increments of a fresh store). -/
def storeAfterThree : Store :=
  incrementUsageForKey (incrementUsageForKey (incrementUsageForKey
    (fun _ => none) "2026-10-12" "9.9.9.9") "2026-10-12" "9.9.9.9")
    "2026-10-12" "9.9.9.9"

/-- Claim C4, witness — the spec's scenario: an anonymous caller with
`GUEST_LIMIT = 3` who has made three admitted calls is rejected on the
fourth with a 429, `LIMIT_REACHED`, and `limit = 3`. -/
theorem c4_limit_reached_witness :
    compressHandler ⟨"9.9.9.9", some GUEST_LIMIT, false, none⟩
        storeAfterThree "2026-10-12" true none "IN" "OUT" ⟨[0], [1]⟩
        (JobOutcome.exitZeroStreamed StreamEnd.ended) =
      ⟨some 429, some "LIMIT_REACHED", some (some 3), storeAfterThree, true,
        false, none, none, ⟨false, false⟩⟩ ∧
    resizeHandler ⟨"9.9.9.9", some GUEST_LIMIT, false, none⟩
        storeAfterThree "2026-10-12" true none none none none "IN" "OUT"
        ⟨[0], [1]⟩ (JobOutcome.exitZeroStreamed StreamEnd.ended) =
      ⟨some 429, some "LIMIT_REACHED", some (some 3), storeAfterThree, true,
        false, none, none, ⟨false, false⟩⟩ :=
  c4_limit_reached ⟨"9.9.9.9", some GUEST_LIMIT, false, none⟩
    storeAfterThree "2026-10-12" none none none none none "IN" "OUT"
    ⟨[0], [1]⟩ (JobOutcome.exitZeroStreamed StreamEnd.ended) 3 rfl rfl
    (by decide)

/-- Claim C5: reading a key's usage on a day other than the stored
entry's date yields count 0 whatever the stored count was, and the first
increment on the new day stores count 1 (the stale entry is reset to 0
before the add). -/
theorem c5_day_reset (store : Store) (key today : String) (e : Entry)
    (hk : store key = some e) (hd : e.date ≠ today) :
    getUsageForKey store today key = ⟨0, today⟩ ∧
    incrementUsageForKey store today key key = some ⟨1, today⟩ := by
  constructor
  · unfold getUsageForKey
    simp [hk, hd]
  · unfold incrementUsageForKey
    simp [hk, hd]

/-- Claim C5, witness: a key that reached count 5 (over every limit) on
2026-10-11 reads back 0 on 2026-10-12, and its first increment on the
new day yields count 1. -/
theorem c5_day_reset_witness :
    getUsageForKey (fun k => if k = "k" then some ⟨5, "2026-10-11"⟩ else none)
        "2026-10-12" "k" = ⟨0, "2026-10-12"⟩ ∧
    incrementUsageForKey (fun k => if k = "k" then some ⟨5, "2026-10-11"⟩
        else none) "2026-10-12" "k" "k" = some ⟨1, "2026-10-12"⟩ :=
  c5_day_reset (fun k => if k = "k" then some ⟨5, "2026-10-11"⟩ else none)
    "k" "2026-10-12" ⟨5, "2026-10-11"⟩ (by simp) (by decide)

/-- Claim C6: whenever the `x-paystack-signature` header is absent, empty
or different from the HMAC-SHA512 hex digest of the raw body, the webhook
answers 401 and nothing else happens: the body is never parsed and no
profile row is touched. The signature test is the first statement of the
handler, so this holds for every body, including one tampered after
signing (whose digest no longer matches the original signature). -/
theorem c6_webhook_sig (hmacHex : List Nat → String)
    (parse : List Nat → Option Payload) (signature : Option String)
    (body : List Nat) (h : sigAccepted signature (hmacHex body) = false) :
    paystackWebhook hmacHex parse signature body = ⟨401, false, none⟩ := by
  unfold paystackWebhook
  simp [h]

/-- Claim C6, witness: a concrete digest function and a body tampered
after signing — the stale signature `sig-of-original` differs from the
digest of the tampered body, so the request is rejected unparsed with no
profile mutation; an absent header is rejected the same way. -/
theorem c6_webhook_sig_witness :
    paystackWebhook (fun b => String.intercalate "." (b.map toString))
        (fun _ => some ⟨"charge.success", "ilv-a-b-c-d-e-123"⟩)
        (some "sig-of-original") [9, 9, 9] = ⟨401, false, none⟩ ∧
    paystackWebhook (fun b => String.intercalate "." (b.map toString))
        (fun _ => some ⟨"charge.success", "ilv-a-b-c-d-e-123"⟩)
        none [9, 9, 9] = ⟨401, false, none⟩ :=
  ⟨c6_webhook_sig (fun b => String.intercalate "." (b.map toString))
      (fun _ => some ⟨"charge.success", "ilv-a-b-c-d-e-123"⟩)
      (some "sig-of-original") [9, 9, 9] (by decide),
    c6_webhook_sig (fun b => String.intercalate "." (b.map toString))
      (fun _ => some ⟨"charge.success", "ilv-a-b-c-d-e-123"⟩)
      none [9, 9, 9] rfl⟩

/-- Claim C7, counterexample. The claim says caller-supplied width and
height are parsed **and clamped to a valid range** before interpolation.
They are parsed (`parseInt`) but never clamped: a non-numeric width
parses to `NaN` and the literal text `NaN` is interpolated into the
scale/pad filter, and a negative width/height is interpolated unchanged —
neither value lies in any valid pixel range. -/
theorem c7_clamp_cex :
    parseIntJS "abc" = none ∧
    resizeVf (parseIntJS "abc") (parseIntJS "1920") "fit" =
      "scale=NaN:1920:force_original_aspect_ratio=decrease,pad=NaN:1920:(ow-iw)/2:(oh-ih)/2:black" ∧
    resizeVf (parseIntJS "-50") (parseIntJS "-1") "crop" =
      "scale=-50:-1:force_original_aspect_ratio=increase,crop=-50:-1" := by
  refine ⟨rfl, ?_, ?_⟩ <;> rfl

/-- `resizeVf` depends on the caller's `mode` string only through the
`mode === \x27crop\x27` comparison. -/
theorem resizeVf_mode_congr (w h : Option Int) (m1 m2 : String)
    (hm : decide (m1 = "crop") = decide (m2 = "crop")) :
    resizeVf w h m1 = resizeVf w h m2 := by
  unfold resizeVf
  by_cases h1 : m1 = "crop"
  · have h2 : m2 = "crop" := by
      have hd : decide (m2 = "crop") = true := hm ▸ decide_eq_true h1
      exact of_decide_eq_true hd
    simp [h1, h2]
  · have h2 : ¬ m2 = "crop" := by
      intro hc
      have hd : decide (m1 = "crop") = true := hm ▸ decide_eq_true hc
      exact h1 (of_decide_eq_true hd)
    simp [h1, h2]

/-- Claim C7, amended: the resize argument list is never built from raw
caller strings — it depends on the caller's width and height only through
`parseInt`, on `mode` only through the `crop` comparison, and on
`quality` only through the `RESIZE_CRF` whitelist, whose resolved value
is always one of the catalog CRFs 18/23/28 (falling back to 23). The
parsed numeric values, however, are interpolated **without** clamping
(see the counterexample). -/
theorem c7_args_enum_only (inputPath outputPath w1 h1 m1 q1 w2 h2 m2 q2 : String)
    (hw : parseIntJS w1 = parseIntJS w2) (hh : parseIntJS h1 = parseIntJS h2)
    (hm : decide (m1 = "crop") = decide (m2 = "crop"))
    (hq : RESIZE_CRF q1 = RESIZE_CRF q2) :
    resizeArgs inputPath outputPath w1 h1 m1 q1 =
      resizeArgs inputPath outputPath w2 h2 m2 q2 ∧
    (RESIZE_CRF q1).getD "23" ∈ ["18", "23", "28"] := by
  constructor
  · simp only [resizeArgs]
    rw [hw, hh, hq, resizeVf_mode_congr (parseIntJS w2) (parseIntJS h2) m1 m2 hm]
  · unfold RESIZE_CRF
    by_cases e1 : q1 = "visually-lossless"
    · simp [e1]
    · by_cases e2 : q1 = "high"
      · simp [e1, e2]
      · by_cases e3 : q1 = "balanced"
        · simp [e1, e2, e3]
        · simp [e1, e2, e3]

/-- Claim C7, witness: the caller strings ` 720px` and `720` parse to the
same number, so the raw text `720px` can never reach the argument list —
both requests produce the identical, whitelisted argument vector. -/
theorem c7_args_enum_only_witness :
    resizeArgs "IN" "OUT" " 720px" "1280" "crop" "balanced" =
      resizeArgs "IN" "OUT" "720" "1280" "crop" "balanced" ∧
    (RESIZE_CRF "balanced").getD "23" ∈ ["18", "23", "28"] :=
  c7_args_enum_only "IN" "OUT" " 720px" "1280" "crop" "balanced"
    "720" "1280" "crop" "balanced" (by decide) rfl rfl rfl

/-- Claim C8: identity resolution always yields a context and degrades
instead of failing. If the bearer credential is absent or does not
verify (`resolveUser` is `none`), the context is the anonymous tier:
keyed by `getClientIp` (first forwarded-for address, falling back to the
peer address) with the finite guest limit. If a user is resolved but the
pro-flag lookup throws, the context is the non-pro authenticated tier
with the finite user limit — never an error. -/
theorem c8_identity_never_fails (getUser : String → Except Unit (Option String))
    (getIsPro : String → Except Unit (Option Bool)) (r : Req) :
    (resolveUser getUser r = none →
      resolveKeyAndLimit getUser getIsPro r =
        ⟨getClientIp r, some GUEST_LIMIT, false, none⟩) ∧
    (∀ uid : String, resolveUser getUser r = some uid →
      ∀ e : Unit, getIsPro uid = Except.error e →
        resolveKeyAndLimit getUser getIsPro r =
          ⟨"user:" ++ uid, some USER_LIMIT, false, some uid⟩) := by
  constructor
  · intro h
    simp [resolveKeyAndLimit, h]
  · intro uid h e he
    simp [resolveKeyAndLimit, h, he]

/-- Claim C8, witness: a request with no usable credential resolves to
the anonymous context keyed by the first forwarded-for address, and a
request whose token verifies but whose profiles lookup throws resolves
to the finite-limit non-pro context. -/
theorem c8_identity_never_fails_witness :
    resolveKeyAndLimit (fun _ => Except.error ()) (fun _ => Except.error ())
        ⟨none, some " 1.2.3.4 , 5.6.7.8", some "7.7.7.7"⟩ =
      ⟨getClientIp ⟨none, some " 1.2.3.4 , 5.6.7.8", some "7.7.7.7"⟩,
        some GUEST_LIMIT, false, none⟩ ∧
    resolveKeyAndLimit (fun _ => Except.ok (some "uid1"))
        (fun _ => Except.error ()) ⟨some "Bearer tok", none, some "7.7.7.7"⟩ =
      ⟨"user:" ++ "uid1", some USER_LIMIT, false, some "uid1"⟩ :=
  ⟨(c8_identity_never_fails (fun _ => Except.error ())
      (fun _ => Except.error ())
      ⟨none, some " 1.2.3.4 , 5.6.7.8", some "7.7.7.7"⟩).1 rfl,
    (c8_identity_never_fails (fun _ => Except.ok (some "uid1"))
      (fun _ => Except.error ())
      ⟨some "Bearer tok", none, some "7.7.7.7"⟩).2 "uid1" rfl () rfl⟩

/-- Claim C9, counterexample. The claim quantifies over **arbitrary
interleavings** of the commits' read-modify-write steps against the
shared store. The schedule read₀, read₁, write₀, write₁ is a valid
interleaving of N = 2 commits on a fresh key, yet the final count is 1,
not 2: the second commit's read happened before the first commit's
write, so one update is lost. -/
theorem c9_lost_update_cex :
    isValidSched 2 [CStep.read 0, CStep.read 1, CStep.write 0, CStep.write 1]
        = true ∧
    (execSched [CStep.read 0, CStep.read 1, CStep.write 0, CStep.write 1]
        initC).count = 1 := by
  exact ⟨by decide, rfl⟩

theorem execSched_atomic (order : List Nat) (s : CState) :
    (execSched (atomicSched order) s).count = s.count + order.length := by
  induction order generalizing s with
  | nil => simp [atomicSched, execSched]
  | cons t rest ih =>
      have hstep : stepC (CStep.write t) (stepC (CStep.read t) s) =
          { count := s.count + 1,
            regs := fun u => if u = t then some s.count else s.regs u } := by
        simp [stepC]
      calc (execSched (atomicSched (t :: rest)) s).count
          = (execSched (atomicSched rest)
              (stepC (CStep.write t) (stepC (CStep.read t) s))).count := rfl
        _ = s.count + 1 + rest.length := by rw [hstep]; exact ih _
        _ = s.count + (t :: rest).length := by simp; omega

/-- Claim C9, amended: `incrementUsageForKey` is synchronous
(`readFileSync`/`writeFileSync` with no await), so on the
single-threaded event loop each commit's read-modify-write executes
atomically and the only realizable schedules run the N commits back to
back, in some order. Every such schedule of N commits on a fresh key
leaves the count at exactly N — no update is lost — and equivalently N
sequential `incrementUsageForKey` calls make `getUsageForKey` read N.
Under truly arbitrary interleaving of the read and write steps the
property is false (see the counterexample). -/
theorem c9_atomic_commits (order : List Nat) (n : Nat) (today key : String) :
    (execSched (atomicSched order) initC).count = order.length ∧
    (getUsageForKey ((fun st => incrementUsageForKey st today key)^[n]
        (fun _ => none)) today key).count = n := by
  constructor
  · rw [execSched_atomic]
    simp [initC]
  · induction n with
    | zero => simp [getUsageForKey]
    | succ m ih =>
        rw [Function.iterate_succ_apply', increment_peek]
        simp [ih]

/-- Claim C10: every compress request resolves to a preset of the
catalog — the chosen argument list is always the value of some
`COMPRESS_PRESETS` entry — and when the preset field is absent or names
no catalog entry, the job is not rejected but falls back to the
`whatsapp` arguments. -/
theorem c10_preset_fallback (presetField : Option String) :
    (∃ name : String,
      COMPRESS_PRESETS name = some (choosePresetArgs presetField)) ∧
    (COMPRESS_PRESETS (choosePreset presetField) = none →
      choosePresetArgs presetField = whatsappArgs) ∧
    (presetField = none → choosePresetArgs presetField = whatsappArgs) := by
  refine ⟨?_, ?_, ?_⟩
  · cases hc : COMPRESS_PRESETS (choosePreset presetField) with
    | some args =>
        exact ⟨choosePreset presetField, by simp [choosePresetArgs, hc]⟩
    | none =>
        refine ⟨"whatsapp", ?_⟩
        simp [choosePresetArgs, hc]
        rfl
  · intro hc
    simp [choosePresetArgs, hc]
  · intro hn
    subst hn
    rfl

/-- Claim C10, witness: an unknown preset id and an absent preset field
both resolve to the `whatsapp` catalog entry's arguments. -/
theorem c10_preset_fallback_witness :
    choosePresetArgs (some "garbage") = whatsappArgs ∧
    choosePresetArgs none = whatsappArgs :=
  ⟨(c10_preset_fallback (some "garbage")).2.1 rfl,
    (c10_preset_fallback none).2.2 rfl⟩
